import Mathlib

/-!
# Verification of the bus-tracking server's admission, caching and retention layer

Shallow embedding of the JavaScript source of `bustracking_Server`:

* `src/src/services/optimizedBusService.js` — `OptimizedBusService`
  (rate-limited single update, batch update, cached active list,
  history downsampling, start tracking, scheduled cleanup);
* `src/src/models/OptimizedBus.js` — `OptimizedBus` (SQL over the `buses` table);
* `src/unnamed/part_003` (`OptimizedLocation` model) — SQL over the `locations` table;
* `src/optimize-database.js` — the standalone maintenance script (`cleanupOldData`).

Modelling conventions:

* times are `Int` epoch milliseconds (`Date.now()`, SQL `NOW()`);
* coordinates and accuracies are `Rat` (JS numbers; the claims never involve NaN);
* optional JS fields are `Option`; the JS falsiness of `0` is modelled explicitly;
* SQL `uuid`/`SERIAL` ids are `Nat`, assigned from a `nextId` counter in the store;
* each JS `Map` is an insertion-ordered association list;
* thrown JS errors are an explicit `error` constructor carrying the message.
-/

namespace BusTracking

/-- JS falsiness of an optional numeric field: `undefined`/`null` or `0`. -/
def jsFalsyNum (x : Option Rat) : Bool :=
  match x with
  | none => true
  | some v => v == 0

/-- JS falsiness of a string: only the empty string is falsy here. -/
def jsFalsyStr (s : String) : Bool := s == ""

/-- A row of the `buses` table.  The SQL `created_at`/`updated_at` columns and the
`SERIAL` id are elided: no claim under verification depends on them. -/
structure Bus where
  busNumber : String
  driverName : String
  isActive : Bool
deriving Repr, DecidableEq

/-- A row of the `locations` table (`id, bus_number, latitude, longitude,
accuracy, timestamp, created_at`). -/
structure Location where
  id : Nat
  busNumber : String
  latitude : Rat
  longitude : Rat
  accuracy : Rat
  timestamp : Int
  createdAt : Int
deriving Repr, DecidableEq

/-- The persistent store: the `buses` and `locations` tables plus the id counter
used to model `uuidv4()` freshness. -/
structure DB where
  buses : List Bus
  locations : List Location
  nextId : Nat
deriving Repr, DecidableEq

/-- The body of a single-update request (`locationData` in
`updateLocationOptimized`): every field may be absent. -/
structure LocationData where
  latitude : Option Rat
  longitude : Option Rat
  accuracy : Option Rat
  timestamp : Option Int
deriving Repr, DecidableEq

/-- One entry of the `locations` array of a batch request. -/
structure BatchUpdate where
  busNumber : String
  latitude : Option Rat
  longitude : Option Rat
  accuracy : Option Rat
  timestamp : Option Int
deriving Repr, DecidableEq

/-- The latest-location view built by `getActiveBusesWithRecentActivity`. -/
structure LatestLoc where
  latitude : Rat
  longitude : Rat
  accuracy : Rat
  timestamp : Int
deriving Repr, DecidableEq

/-- One element of the active-bus list: `{ bus, latestLocation }`. -/
structure ActiveEntry where
  bus : Bus
  latestLocation : Option LatestLoc
deriving Repr, DecidableEq

/-- A value stored in the JS `cache.activeBuses` map, which heterogeneously holds
per-bus entries `{ ...bus, cachedAt }` and, under the key `all_active_buses`,
the snapshot `{ data, timestamp }`. -/
inductive ABVal where
  | busEntry (bus : Bus) (cachedAt : Int)
  | listEntry (data : List ActiveEntry) (timestamp : Int)
deriving Repr, DecidableEq

/-- A value stored in the JS `cache.recentLocations` map: `updateLocationOptimized`
stores the saved `Location` row, while `batchUpdateLocations` stores the spread
of the raw input with a refreshed timestamp. -/
inductive RecentVal where
  | saved (loc : Location)
  | raw (upd : BatchUpdate) (timestamp : Int)
deriving Repr, DecidableEq

/-- The module-level `cache` object of `optimizedBusService.js`. -/
structure Cache where
  activeBuses : List (String × ABVal)
  lastUpdated : List (String × Int)
  recentLocations : List (String × RecentVal)
deriving Repr, DecidableEq

/-- Whole-system state: the persistent store plus the in-process cache. -/
structure SysState where
  db : DB
  cache : Cache
deriving Repr, DecidableEq

/-- `Map.prototype.get`. -/
def mapGet (m : List (String × α)) (k : String) : Option α :=
  (m.find? (fun p => p.1 == k)).map (·.2)

/-- `Map.prototype.set`: replace in place if the key exists, else append. -/
def mapSet (m : List (String × α)) (k : String) (v : α) : List (String × α) :=
  if m.any (fun p => p.1 == k) then
    m.map (fun p => if p.1 == k then (k, v) else p)
  else
    m ++ [(k, v)]

/-- `Map.prototype.delete`. -/
def mapDel (m : List (String × α)) (k : String) : List (String × α) :=
  m.filter (fun p => ¬ p.1 == k)

/-! ## SQL queries of the `OptimizedBus` and `OptimizedLocation` models -/

/-- `ORDER BY timestamp DESC`: `a` precedes `b` when `b.timestamp ≤ a.timestamp`.
Ties are resolved by the stable sort, matching one legal SQL ordering. -/
def tsDescR (a b : Location) : Prop := b.timestamp ≤ a.timestamp

instance : DecidableRel tsDescR := fun a b => inferInstanceAs (Decidable (b.timestamp ≤ a.timestamp))

instance : IsTotal Location tsDescR := ⟨fun a b => le_total b.timestamp a.timestamp⟩

instance : IsTrans Location tsDescR := ⟨fun _ _ _ h h' => le_trans h' h⟩

/-- `OptimizedBus.findByBusNumber`: `SELECT * FROM buses WHERE bus_number = $1`
(bus numbers are unique, so the first match is the row). -/
def findByBusNumber (db : DB) (busNumber : String) : Option Bus :=
  db.buses.find? (fun b => b.busNumber == busNumber)

/-- `OptimizedBus.create`: insert with `is_active = true` and
`driver_name` defaulted to `'Unknown'` when falsy. -/
def busCreate (db : DB) (busNumber driverName : String) : Bus × DB :=
  let b : Bus := { busNumber := busNumber
                   driverName := if jsFalsyStr driverName then "Unknown" else driverName
                   isActive := true }
  (b, { db with buses := db.buses ++ [b] })

/-- `OptimizedBus.updateActiveStatus`: `UPDATE buses SET is_active = $1 WHERE
bus_number = $2 RETURNING *`; `none` models the thrown not-found error. -/
def updateActiveStatus (db : DB) (busNumber : String) (isActive : Bool) :
    Option (Bus × DB) :=
  let buses := db.buses.map (fun b =>
    if b.busNumber == busNumber then { b with isActive := isActive } else b)
  match buses.find? (fun b => b.busNumber == busNumber) with
  | none => none
  | some b => some (b, { db with buses := buses })

/-- `OptimizedLocation.create`: insert one row; `accuracy` defaults to `0` when
falsy (`parseFloat(x) || 0`), `timestamp` to the current time when absent
(ISO-string timestamps are always truthy). -/
def locCreate (db : DB) (now : Int) (busNumber : String)
    (latitude longitude : Rat) (accuracy : Option Rat) (timestamp : Option Int) :
    Location × DB :=
  let l : Location := { id := db.nextId
                        busNumber := busNumber
                        latitude := latitude
                        longitude := longitude
                        accuracy := match accuracy with
                                    | none => 0
                                    | some a => if a == 0 then 0 else a
                        timestamp := timestamp.getD now
                        createdAt := now }
  (l, { db with locations := db.locations ++ [l], nextId := db.nextId + 1 })

/-- `OptimizedLocation.getByBusNumber`: `SELECT * FROM locations WHERE
bus_number = $1 ORDER BY timestamp DESC LIMIT $2`. -/
def getByBusNumber (db : DB) (busNumber : String) (limit : Nat) : List Location :=
  (List.insertionSort tsDescR
    (db.locations.filter (fun l => l.busNumber == busNumber))).take limit

/-- The `LEFT JOIN LATERAL ... ORDER BY timestamp DESC LIMIT 1` subquery:
the vehicle's most recent sample over the whole table, if any. -/
def latestSample (db : DB) (busNumber : String) : Option Location :=
  (List.insertionSort tsDescR
    (db.locations.filter (fun l => l.busNumber == busNumber))).head?

/-- `ORDER BY l.timestamp DESC NULLS LAST` on the joined rows. -/
def rowDescR (a b : Bus × Option Location) : Prop :=
  match a.2, b.2 with
  | some x, some y => y.timestamp ≤ x.timestamp
  | some _, none => True
  | none, some _ => False
  | none, none => True

instance : DecidableRel rowDescR := fun a b => by
  rcases a with ⟨a1, _ | x⟩ <;> rcases b with ⟨b1, _ | y⟩ <;>
    simp only [rowDescR] <;> infer_instance

instance : IsTotal (Bus × Option Location) rowDescR := by
  constructor
  intro a b
  rcases a with ⟨a1, _ | x⟩ <;> rcases b with ⟨b1, _ | y⟩ <;>
    simp [rowDescR, le_total]

instance : IsTrans (Bus × Option Location) rowDescR := by
  constructor
  intro a b c hab hbc
  rcases a with ⟨a1, _ | x⟩ <;> rcases b with ⟨b1, _ | y⟩ <;> rcases c with ⟨c1, _ | z⟩ <;>
    (simp only [rowDescR] at hab hbc ⊢
     try first
      | trivial
      | exact le_trans hbc hab)

/-- `OptimizedBus.getActiveBusesWithRecentActivity(minutesAgo)`: joins each
active bus with its most recent sample; a row survives the `WHERE` clause iff
the bus has no sample at all (`l.timestamp IS NULL`) or its most recent sample
is within the window.  The final projection maps a row to `{ bus,
latestLocation }`, where `row.latitude ? {...} : null` makes a latitude of `0`
(JS-falsy) yield `null`. -/
def getActiveBusesWithRecentActivity (db : DB) (now : Int) (minutesAgo : Int) :
    List ActiveEntry :=
  let rows := (db.buses.filter (fun b => b.isActive)).map
    (fun b => (b, latestSample db b.busNumber))
  let kept := rows.filter (fun r =>
    match r.2 with
    | none => true
    | some s => now - minutesAgo * 60000 ≤ s.timestamp)
  let sorted := List.insertionSort rowDescR kept
  sorted.map (fun r =>
    { bus := r.1
      latestLocation :=
        match r.2 with
        | none => none
        | some s =>
          if s.latitude == 0 then none
          else some { latitude := s.latitude, longitude := s.longitude
                      accuracy := s.accuracy, timestamp := s.timestamp } })

/-! ## `OptimizedBusService.updateLocationOptimized` -/

/-- Outcome of `updateLocationOptimized`: the early rate-limited success, the
normal success carrying the saved row, or a thrown error message. -/
inductive UpdateResult where
  | rateLimited
  | updated (loc : Location)
  | error (msg : String)
deriving Repr, DecidableEq

/-- Outcome of the cached existence/activity lookup inside
`updateLocationOptimized`: the bus is absent, present but with a falsy
`isActive`, or present and actively tracked. -/
inductive BusLookup where
  | missing
  | notTracked
  | tracked (b : Bus)
deriving Repr, DecidableEq

/-- `CACHE_TTL.BUS_STATUS` (1 minute). -/
def BUS_STATUS_TTL : Int := 60000

/-- `CACHE_TTL.ACTIVE_BUSES` (30 seconds). -/
def ACTIVE_BUSES_TTL : Int := 30000

/-- `OptimizedBusService.updateLocationOptimized(busNumber, locationData)` at
time `now`.  Faithful to the source order: rate-limit check first (returning a
success without touching any state), then presence validation with JS
falsiness (`!locationData.latitude` rejects latitude `0`), then range
validation, then the cached existence/activity check, then the insert and the
cache refresh.  When the cached value under `busNumber` is the active-list
snapshot, `bus.cachedAt` is `undefined`, the staleness comparison is `NaN >
ttl` (false), and `bus.isActive` is `undefined` (falsy), as in JS. -/
def updateLocationOptimized (st : SysState) (now : Int) (busNumber : String)
    (d : LocationData) : UpdateResult × SysState :=
  let lastUpdate := (mapGet st.cache.lastUpdated busNumber).getD 0
  let timeSinceLastUpdate := now - lastUpdate
  if timeSinceLastUpdate < 8000 then
    (.rateLimited, st)
  else if jsFalsyNum d.latitude || jsFalsyNum d.longitude then
    (.error "Latitude and longitude are required", st)
  else
    let lat := d.latitude.getD 0
    let lon := d.longitude.getD 0
    if |lat| > 90 || |lon| > 180 then
      (.error "Invalid coordinates", st)
    else
      -- Bus lookup: the refetch-and-recache step, returning the looked-up bus
      -- (`none` models JS `bus` being null) and the possibly updated state.
      -- A snapshot entry under this key has `cachedAt` undefined: `NaN > ttl`
      -- is false, so it is kept, and its undefined `isActive` is falsy.
      let refetch : Option Bus × SysState :=
        match findByBusNumber st.db busNumber with
        | some b2 =>
          let ab := mapSet st.cache.activeBuses busNumber (.busEntry b2 now)
          (some b2, { st with cache := { st.cache with activeBuses := ab } })
        | none => (none, st)
      let lookup : BusLookup × SysState :=
        match mapGet st.cache.activeBuses busNumber with
        | some (.busEntry b cachedAt) =>
          if now - cachedAt > BUS_STATUS_TTL then
            match refetch with
            | (none, st1) => (.missing, st1)
            | (some b2, st1) => (if b2.isActive then .tracked b2 else .notTracked, st1)
          else
            (if b.isActive then .tracked b else .notTracked, st)
        | some (.listEntry _ _) => (.notTracked, st)
        | none =>
          match refetch with
          | (none, st1) => (.missing, st1)
          | (some b2, st1) => (if b2.isActive then .tracked b2 else .notTracked, st1)
      match lookup with
      | (.missing, st1) =>
        (.error ("Bus " ++ busNumber ++ " not found. Please start tracking first."), st1)
      | (.notTracked, st1) =>
        (.error ("Bus " ++ busNumber ++ " is not currently being tracked"), st1)
      | (.tracked _, st1) =>
        let (loc, db2) := locCreate st1.db now busNumber lat lon d.accuracy d.timestamp
        let cache2 :=
          { st1.cache with
            lastUpdated := mapSet st1.cache.lastUpdated busNumber now
            recentLocations := mapSet st1.cache.recentLocations busNumber (.saved loc) }
        (.updated loc, { db := db2, cache := cache2 })

/-! ## `OptimizedBusService.getActiveBusesOptimized` -/

/-- The cache-miss path: run the composite query and store the snapshot under
`all_active_buses`. -/
def refreshActiveList (st : SysState) (now : Int) : List ActiveEntry × SysState :=
  let data := getActiveBusesWithRecentActivity st.db now 30
  let ab := mapSet st.cache.activeBuses "all_active_buses" (.listEntry data now)
  (data, { st with cache := { st.cache with activeBuses := ab } })

/-- `OptimizedBusService.getActiveBusesOptimized()` at time `now`.  A per-bus
entry stored under the key `all_active_buses` has `cached.timestamp` undefined,
so the freshness test `NaN < ttl` is false and the call falls through to the
query, as in JS. -/
def getActiveBusesOptimized (st : SysState) (now : Int) :
    List ActiveEntry × SysState :=
  match mapGet st.cache.activeBuses "all_active_buses" with
  | some (.listEntry data ts) =>
    if now - ts < ACTIVE_BUSES_TTL then (data, st) else refreshActiveList st now
  | _ => refreshActiveList st now

/-! ## `OptimizedBusService.startTrackingOptimized` -/

/-- Outcome of `startTrackingOptimized`. -/
inductive TrackResult where
  | ok (bus : Bus)
  | error (msg : String)
deriving Repr, DecidableEq

/-- `OptimizedBusService.startTrackingOptimized(busNumber, driverName)` at time
`now`: create the bus when absent, otherwise reactivate it via
`updateActiveStatus`; then cache the bus entry and drop the
`all_active_buses` snapshot. -/
def startTrackingOptimized (st : SysState) (now : Int)
    (busNumber driverName : String) : TrackResult × SysState :=
  let finish : Bus → DB → TrackResult × SysState := fun b db2 =>
    let ab := mapDel (mapSet st.cache.activeBuses busNumber (.busEntry b now))
      "all_active_buses"
    (.ok b, { db := db2, cache := { st.cache with activeBuses := ab } })
  match findByBusNumber st.db busNumber with
  | none =>
    let (b, db2) := busCreate st.db busNumber driverName
    finish b db2
  | some _ =>
    match updateActiveStatus st.db busNumber true with
    | none => (.error ("Bus " ++ busNumber ++ " not found"), st)
    | some (b, db2) => finish b db2

/-! ## `OptimizedBusService.batchUpdateLocations` -/

/-- Outcome of `batchUpdateLocations`: the `{ processed, failed }` success
shape or a thrown error message. -/
inductive BatchResult where
  | ok (processed failed : Nat)
  | error (msg : String)
deriving Repr, DecidableEq

/-- The validity filter of `batchUpdateLocations` (source lines 27-33):
truthy bus number, truthy latitude and longitude (so `0` is dropped), and
in-range absolute values. -/
def validBatchEntry (u : BatchUpdate) : Bool :=
  !(jsFalsyStr u.busNumber) && !(jsFalsyNum u.latitude) && !(jsFalsyNum u.longitude)
    && decide (|u.latitude.getD 0| ≤ 90) && decide (|u.longitude.getD 0| ≤ 180)

/-- `OptimizedLocation.batchCreate`: insert each row with a fresh id,
`accuracy || 0`, `timestamp || now`, `created_at = now`. -/
def batchCreate : DB → Int → List BatchUpdate → List Location × DB
  | db, _, [] => ([], db)
  | db, now, u :: us =>
    let l : Location := { id := db.nextId
                          busNumber := u.busNumber
                          latitude := u.latitude.getD 0
                          longitude := u.longitude.getD 0
                          accuracy := match u.accuracy with
                                      | none => 0
                                      | some a => if a == 0 then 0 else a
                          timestamp := u.timestamp.getD now
                          createdAt := now }
    let (ls, db2) :=
      batchCreate { db with locations := db.locations ++ [l], nextId := db.nextId + 1 }
        now us
    (l :: ls, db2)

/-- `OptimizedBusService.batchUpdateLocations(locationUpdates)` at time `now`:
an empty input returns `{ success, processed: 0 }`; if no entry passes the
validity filter the call throws `No valid locations to process`; otherwise the
valid subset is batch-inserted and, per valid entry, `lastUpdated` and
`recentLocations` are refreshed with the raw input. -/
def batchUpdateLocations (st : SysState) (now : Int)
    (locationUpdates : List BatchUpdate) : BatchResult × SysState :=
  if locationUpdates.length = 0 then (.ok 0 0, st)
  else
    let validLocations := locationUpdates.filter validBatchEntry
    if validLocations.length = 0 then
      (.error "No valid locations to process", st)
    else
      let (saved, db2) := batchCreate st.db now validLocations
      let cache2 := validLocations.foldl (fun c u =>
        { c with
          lastUpdated := mapSet c.lastUpdated u.busNumber now
          recentLocations := mapSet c.recentLocations u.busNumber (.raw u now) })
        st.cache
      (.ok saved.length (locationUpdates.length - validLocations.length),
       { db := db2, cache := cache2 })

/-! ## `OptimizedBusService.getBusHistoryOptimized` -/

/-- `Array.prototype.filter((_, index) => p index)`, carrying the index. -/
def filterIdxAux (p : Nat → Bool) : Nat → List α → List α
  | _, [] => []
  | i, x :: xs =>
    if p i then x :: filterIdxAux p (i + 1) xs else filterIdxAux p (i + 1) xs

/-- Index-aware filter starting at index 0. -/
def filterIdx (p : Nat → Bool) (l : List α) : List α := filterIdxAux p 0 l

/-- `Math.ceil(n / maxPoints)`.  For `maxPoints = 0` this is `0`, and Lean's
`i % 0 = i` matches the JS stride `Infinity`, for which `i % Infinity = i`. -/
def histStride (n maxPoints : Nat) : Nat := (n + maxPoints - 1) / maxPoints

/-- The downsampling step of `getBusHistoryOptimized` (source lines 209-218):
when the fetched list exceeds `maxPoints`, keep every `step`-th index and
force-include the head (the most recent sample, since the fetch is newest
first) if the stride skipped it. -/
def sampleHistory (allLocations : List Location) (maxPoints : Nat) :
    List Location :=
  if allLocations.length > maxPoints then
    let step := histStride allLocations.length maxPoints
    let sampled := filterIdx (fun i => i % step == 0) allLocations
    match allLocations, sampled with
    | [], _ => sampled
    | a :: _, [] => [a]
    | a :: _, s :: _ => if s.id != a.id then a :: sampled else sampled
  else allLocations

/-- The `{ bus, locations, totalLocations, sampledPoints }` success shape of
`getBusHistoryOptimized`. -/
structure HistoryResult where
  bus : Bus
  locations : List Location
  totalLocations : Nat
  sampledPoints : Nat
deriving Repr, DecidableEq

/-- `OptimizedBusService.getBusHistoryOptimized(busNumber, hours, maxPoints)`:
the fetch is `getByBusNumber(busNumber, hours * 60)` — a row-count limit used
as a rough estimate of the time window — followed by the downsampling step. -/
def getBusHistoryOptimized (db : DB) (busNumber : String)
    (hours maxPoints : Nat) : Except String HistoryResult :=
  match findByBusNumber db busNumber with
  | none => .error ("Bus " ++ busNumber ++ " not found")
  | some bus =>
    let allLocations := getByBusNumber db busNumber (hours * 60)
    let sampledLocations := sampleHistory allLocations maxPoints
    .ok { bus := bus
          locations := sampledLocations
          totalLocations := allLocations.length
          sampledPoints := sampledLocations.length }

/-! ## Retention: `OptimizedLocation.smartCleanup`,
`OptimizedBusService.performScheduledCleanup`, and the standalone
`cleanupOldData` of `optimize-database.js` -/

/-- A sample is aged when `created_at < NOW() - INTERVAL daysOld days`. -/
def agedB (now : Int) (daysOld : Nat) (l : Location) : Bool :=
  decide (l.createdAt < now - (daysOld : Int) * 86400000)

/-- `ROW_NUMBER() OVER (PARTITION BY bus_number ORDER BY timestamp DESC)`
within the aged set, 1-based; ties are broken by id, a deterministic choice
among the orderings SQL may produce. -/
def locRank (aged : List Location) (l : Location) : Nat :=
  1 + (aged.filter (fun m =>
    m.busNumber == l.busNumber &&
      (decide (l.timestamp < m.timestamp) ||
        (m.timestamp == l.timestamp && decide (m.id < l.id))))).length

/-- `OptimizedLocation.smartCleanup(daysOld, keepSampleEvery)`: delete every
aged sample whose per-vehicle recency rank is not a multiple of
`keepSampleEvery`, returning the deleted-row count and the new store. -/
def smartCleanup (db : DB) (now : Int) (daysOld keepEvery : Nat) : Nat × DB :=
  let aged := db.locations.filter (agedB now daysOld)
  let deleteIds :=
    (aged.filter (fun l => locRank aged l % keepEvery != 0)).map (·.id)
  let remaining := db.locations.filter (fun l => !(deleteIds.contains l.id))
  (db.locations.length - remaining.length, { db with locations := remaining })

/-- `OptimizedBusService.performScheduledCleanup()`: `smartCleanup(7, 10)` plus
eviction of `cache.activeBuses` entries older than twice the bus-status TTL.
The snapshot entry has `value.cachedAt` undefined, so its `NaN` age comparison
is false and it is kept, as in JS.  No bus row is touched. -/
def performScheduledCleanup (st : SysState) (now : Int) : Nat × SysState :=
  let (deleted, db2) := smartCleanup st.db now 7 10
  let ab := st.cache.activeBuses.filter (fun p =>
    match p.2 with
    | .busEntry _ cachedAt => !(decide (now - cachedAt > BUS_STATUS_TTL * 2))
    | .listEntry _ _ => true)
  (deleted, { db := db2, cache := { st.cache with activeBuses := ab } })

/-- `cleanupOldData` of `optimize-database.js`: delete samples with
`timestamp < NOW() - 7 days`, then set `is_active = false` on every active bus
with no sample in the last 2 hours (the subquery runs after the delete).  This
is a standalone maintenance script: it has no access to the service cache. -/
def cleanupOldData (db : DB) (now : Int) : DB :=
  let locations2 := db.locations.filter (fun l =>
    !(decide (l.timestamp < now - 7 * 86400000)))
  let hasRecent : String → Bool := fun bn =>
    locations2.any (fun l => l.busNumber == bn && decide (now - 2 * 3600000 ≤ l.timestamp))
  let buses2 := db.buses.map (fun b =>
    if b.isActive && !(hasRecent b.busNumber) then { b with isActive := false } else b)
  { db with buses := buses2, locations := locations2 }

/-! ## Concrete fixtures used by the theorems below -/

/-- A registered, actively tracked vehicle. -/
def busB7 : Bus := ⟨"B7", "Dana", true⟩

/-- System state with `busB7` registered, no samples, and an empty cache. -/
def stReady : SysState := ⟨⟨[busB7], [], 0⟩, ⟨[], [], []⟩⟩

/-- A well-formed single-update body with in-range nonzero coordinates. -/
def dataValid : LocationData := ⟨some 10, some 20, none, none⟩

/-- State whose rate-limit cache records an accepted update for `B7` at
t = 100000 ms. -/
def stWindow : SysState := ⟨⟨[busB7], [], 0⟩, ⟨[], [("B7", 100000)], []⟩⟩

/-- A sample of `B7` taken at epoch 0. -/
def locStale : Location := ⟨0, "B7", 1, 2, 0, 0, 0⟩

/-- Store in which `B7`'s only sample is `locStale`. -/
def dbStale : DB := ⟨[busB7], [locStale], 1⟩

/-- A much newer sample of `B7`. -/
def locFresh : Location := ⟨1, "B7", 1, 2, 0, 1000000000, 1000000000⟩

/-- Store holding both `locStale` and `locFresh` for `B7`. -/
def dbTwo : DB := ⟨[busB7], [locStale, locFresh], 2⟩

/-- Store with 100 samples of `B7`, ids and timestamps `0..99`, all created at
epoch 0. -/
def dbHundred : DB :=
  ⟨[busB7], (List.range 100).map (fun i => ⟨i, "B7", 1, 2, 0, (i : Int), 0⟩), 100⟩

/-- Ten days in milliseconds: the `NOW()` used against `dbHundred`, making all
its samples 10 days old. -/
def tenDays : Int := 864000000

/-- State with `dbStale` as store and an empty cache. -/
def stStale : SysState := ⟨dbStale, ⟨[], [], []⟩⟩

/-- State with an empty store and an empty cache. -/
def stEmpty : SysState := ⟨⟨[], [], 0⟩, ⟨[], [], []⟩⟩

/-! ## General helper lemmas -/

/-- A map by a function that fixes every element of the list is the list. -/
theorem map_id_of_forall_mem {α : Type} {l : List α} {f : α → α}
    (h : ∀ a ∈ l, f a = a) : l.map f = l := by
  induction l with
  | nil => rfl
  | cons x xs ih =>
    simp only [List.map_cons, h x (by simp)]
    rw [ih (fun a ha => h a (by simp [ha]))]

/-- Membership characterization of the composite active-bus query: a bus `b`
appears in `getActiveBusesWithRecentActivity db now minutesAgo` exactly when it
is a stored, active bus that either has no sample at all or whose most recent
sample lies within the recency window. -/
theorem mem_activeBusesQuery (db : DB) (now minutesAgo : Int) (b : Bus) :
    (∃ e ∈ getActiveBusesWithRecentActivity db now minutesAgo, e.bus = b) ↔
      (b ∈ db.buses ∧ b.isActive = true ∧
        (latestSample db b.busNumber).elim True
          (fun s => now - minutesAgo * 60000 ≤ s.timestamp)) := by
  unfold getActiveBusesWithRecentActivity
  constructor
  · rintro ⟨e, he, hbe⟩
    rw [List.mem_map] at he
    obtain ⟨r, hr, hre⟩ := he
    rw [List.mem_insertionSort] at hr
    rw [List.mem_filter] at hr
    obtain ⟨hrows, hpred⟩ := hr
    rw [List.mem_map] at hrows
    obtain ⟨b2, hb2, hrb⟩ := hrows
    rw [List.mem_filter] at hb2
    have hb2b : b2 = b := by
      have : e.bus = b2 := by rw [← hre, ← hrb]
      rw [← hbe, this]
    subst hb2b
    refine ⟨hb2.1, by simpa using hb2.2, ?_⟩
    rw [← hrb] at hpred
    cases hls : latestSample db b2.busNumber with
    | none => simp
    | some s =>
      rw [hls] at hpred
      simpa using hpred
  · rintro ⟨hb, hact, hrec⟩
    refine ⟨_, List.mem_map.mpr ⟨(b, latestSample db b.busNumber), ?_, rfl⟩, ?_⟩
    · rw [List.mem_insertionSort, List.mem_filter]
      refine ⟨List.mem_map.mpr ⟨b, List.mem_filter.mpr ⟨hb, by simp [hact]⟩, rfl⟩, ?_⟩
      cases hls : latestSample db b.busNumber with
      | none => simp
      | some s =>
        rw [hls] at hrec
        simpa using hrec
    · rfl

/-! ## C1 -/

/-- C1: a submission with latitude 0 to an existing, active vehicle, valid and
outside the rate-limit window, is nevertheless rejected with the message
`Latitude and longitude are required`, because the JS presence check
`!locationData.latitude` treats the number 0 as absent.  The conjuncts confirm
each premise of the claim: the vehicle exists and is active, no prior accepted
update constrains the timing, and `(0, 10)` is in range; yet the call reports a
validation error and writes nothing. -/
theorem c1_zero_latitude_rejected_despite_valid :
    findByBusNumber stReady.db "B7" = some busB7
    ∧ busB7.isActive = true
    ∧ mapGet stReady.cache.lastUpdated "B7" = none
    ∧ |(0 : Rat)| ≤ 90 ∧ |(10 : Rat)| ≤ 180
    ∧ updateLocationOptimized stReady 100000 "B7" ⟨some 0, some 10, none, none⟩
      = (.error "Latitude and longitude are required", stReady) := by
  refine ⟨rfl, rfl, rfl, by norm_num, by norm_num, ?_⟩
  decide

/-! ## C2 -/

/-- C2: submissions for `B7` at `t0`, `t0 + 5s` and `t0 + 9s` (with `t0` at
least 8s past the epoch, as any real clock reading is): the first is accepted
and written and advances the per-vehicle last-accepted timestamp to `t0`; the
second is reported as a rate-limited success while leaving the entire state —
store and cache, hence also the last-accepted timestamp — unchanged; the third
is accepted and written because 9s ≥ 8s have elapsed since the last accepted
submission. -/
theorem c2_rate_limit_scenario (t0 : Int) (h : 8000 ≤ t0) :
    (updateLocationOptimized stReady t0 "B7" dataValid).1
      = .updated ⟨0, "B7", 10, 20, 0, t0, t0⟩
    ∧ (updateLocationOptimized stReady t0 "B7" dataValid).2.db.locations
      = [⟨0, "B7", 10, 20, 0, t0, t0⟩]
    ∧ mapGet (updateLocationOptimized stReady t0 "B7" dataValid).2.cache.lastUpdated "B7"
      = some t0
    ∧ (updateLocationOptimized (updateLocationOptimized stReady t0 "B7" dataValid).2
        (t0 + 5000) "B7" dataValid).1 = .rateLimited
    ∧ (updateLocationOptimized (updateLocationOptimized stReady t0 "B7" dataValid).2
        (t0 + 5000) "B7" dataValid).2
      = (updateLocationOptimized stReady t0 "B7" dataValid).2
    ∧ (updateLocationOptimized
        (updateLocationOptimized (updateLocationOptimized stReady t0 "B7" dataValid).2
          (t0 + 5000) "B7" dataValid).2
        (t0 + 9000) "B7" dataValid).1
      = .updated ⟨1, "B7", 10, 20, 0, t0 + 9000, t0 + 9000⟩
    ∧ (updateLocationOptimized
        (updateLocationOptimized (updateLocationOptimized stReady t0 "B7" dataValid).2
          (t0 + 5000) "B7" dataValid).2
        (t0 + 9000) "B7" dataValid).2.db.locations
      = [⟨0, "B7", 10, 20, 0, t0, t0⟩, ⟨1, "B7", 10, 20, 0, t0 + 9000, t0 + 9000⟩] := by
  have h1 : ¬ t0 < 8000 := by omega
  simp [updateLocationOptimized, stReady, dataValid, mapGet, mapSet, locCreate,
    findByBusNumber, jsFalsyNum, busB7, h1, BUS_STATUS_TTL]
  norm_num

/-- Witness for C2 at `t0 = 8000`. -/
theorem c2_rate_limit_scenario_witness :
    (8000 : Int) ≤ 8000
    ∧ ((updateLocationOptimized stReady 8000 "B7" dataValid).1
        = .updated ⟨0, "B7", 10, 20, 0, 8000, 8000⟩
      ∧ (updateLocationOptimized stReady 8000 "B7" dataValid).2.db.locations
        = [⟨0, "B7", 10, 20, 0, 8000, 8000⟩]
      ∧ mapGet (updateLocationOptimized stReady 8000 "B7" dataValid).2.cache.lastUpdated "B7"
        = some 8000
      ∧ (updateLocationOptimized (updateLocationOptimized stReady 8000 "B7" dataValid).2
          (8000 + 5000) "B7" dataValid).1 = .rateLimited
      ∧ (updateLocationOptimized (updateLocationOptimized stReady 8000 "B7" dataValid).2
          (8000 + 5000) "B7" dataValid).2
        = (updateLocationOptimized stReady 8000 "B7" dataValid).2
      ∧ (updateLocationOptimized
          (updateLocationOptimized (updateLocationOptimized stReady 8000 "B7" dataValid).2
            (8000 + 5000) "B7" dataValid).2
          (8000 + 9000) "B7" dataValid).1
        = .updated ⟨1, "B7", 10, 20, 0, 8000 + 9000, 8000 + 9000⟩
      ∧ (updateLocationOptimized
          (updateLocationOptimized (updateLocationOptimized stReady 8000 "B7" dataValid).2
            (8000 + 5000) "B7" dataValid).2
          (8000 + 9000) "B7" dataValid).2.db.locations
        = [⟨0, "B7", 10, 20, 0, 8000, 8000⟩,
           ⟨1, "B7", 10, 20, 0, 8000 + 9000, 8000 + 9000⟩]) :=
  ⟨by norm_num, c2_rate_limit_scenario 8000 (by norm_num)⟩

/-! ## C4 -/

/-- C4 counterexample: an out-of-range submission (`lat = 200`) arriving 4s
after the last accepted update for `B7` — inside the 8-second window — is NOT
reported as a validation error: the call returns the rate-limited success and
leaves the state unchanged, because the rate-limit check precedes validation. -/
theorem c4_counterexample_out_of_range_in_window :
    mapGet stWindow.cache.lastUpdated "B7" = some 100000
    ∧ ((104000 : Int) - 100000 < 8000)
    ∧ (90 : Rat) < |(200 : Rat)|
    ∧ updateLocationOptimized stWindow 104000 "B7" ⟨some 200, some 10, none, none⟩
      = (.rateLimited, stWindow) := by
  refine ⟨rfl, by norm_num, by norm_num, ?_⟩
  decide

/-- C4 amended: a single submission whose coordinates are present, nonzero and
out of range (|lat| > 90 or |lon| > 180) has no side effects — no sample is
written and the cache is unchanged — for every timing; but the reported
outcome depends on the timing: inside the 8-second window it is reported as a
rate-limited success (validation never runs), and only outside the window does
it report the `Invalid coordinates` validation error. -/
theorem c4_amended_out_of_range (st : SysState) (now : Int) (busNumber : String)
    (d : LocationData)
    (hlat : jsFalsyNum d.latitude = false) (hlon : jsFalsyNum d.longitude = false)
    (hrange : 90 < |d.latitude.getD 0| ∨ 180 < |d.longitude.getD 0|) :
    (now - (mapGet st.cache.lastUpdated busNumber).getD 0 < 8000 →
      updateLocationOptimized st now busNumber d = (.rateLimited, st))
    ∧ (¬ now - (mapGet st.cache.lastUpdated busNumber).getD 0 < 8000 →
      updateLocationOptimized st now busNumber d
        = (.error "Invalid coordinates", st)) := by
  constructor
  · intro hin
    simp [updateLocationOptimized, hin]
  · intro hout
    simp [updateLocationOptimized, hout, hlat, hlon, hrange]

/-- Witness for C4 amended: `lat = 200` against `stWindow`, once at 4s
(suppressed) and the hypotheses discharged concretely. -/
theorem c4_amended_out_of_range_witness :
    jsFalsyNum (some (200 : Rat)) = false
    ∧ jsFalsyNum (some (10 : Rat)) = false
    ∧ (90 < |((some (200 : Rat)).getD 0)| ∨ 180 < |((some (10 : Rat)).getD 0)|)
    ∧ ((112000 : Int) - (mapGet stWindow.cache.lastUpdated "B7").getD 0 < 8000 →
        updateLocationOptimized stWindow 112000 "B7" ⟨some 200, some 10, none, none⟩
          = (.rateLimited, stWindow))
    ∧ (¬ (112000 : Int) - (mapGet stWindow.cache.lastUpdated "B7").getD 0 < 8000 →
        updateLocationOptimized stWindow 112000 "B7" ⟨some 200, some 10, none, none⟩
          = (.error "Invalid coordinates", stWindow)) :=
  ⟨by decide, by decide, by norm_num,
    (c4_amended_out_of_range stWindow 112000 "B7" ⟨some 200, some 10, none, none⟩
      (by decide) (by decide) (by norm_num)).1,
    (c4_amended_out_of_range stWindow 112000 "B7" ⟨some 200, some 10, none, none⟩
      (by decide) (by decide) (by norm_num)).2⟩

/-! ## C10 -/

/-- C10: a non-empty batch in which no entry passes the validity filter makes
`batchUpdateLocations` throw `No valid locations to process` — leaving the
state untouched — rather than return a `{ processed: 0, failed: n }` result. -/
theorem c10_all_invalid_batch_throws (st : SysState) (now : Int)
    (updates : List BatchUpdate) (hne : updates ≠ [])
    (hinv : ∀ u ∈ updates, validBatchEntry u = false) :
    batchUpdateLocations st now updates
      = (.error "No valid locations to process", st) := by
  have hlen : ¬ updates.length = 0 := by
    simpa [List.length_eq_zero] using hne
  have hfil : updates.filter validBatchEntry = [] :=
    List.filter_eq_nil_iff.mpr (fun a ha => by simp [hinv a ha])
  simp [batchUpdateLocations, hlen, hfil]

/-- Witness for C10: a one-entry batch whose only entry has `lat = 200`. -/
theorem c10_all_invalid_batch_throws_witness :
    ([(⟨"B1", some 200, some 10, none, none⟩ : BatchUpdate)] ≠ [])
    ∧ (∀ u ∈ [(⟨"B1", some 200, some 10, none, none⟩ : BatchUpdate)],
        validBatchEntry u = false)
    ∧ batchUpdateLocations stReady 1000 [⟨"B1", some 200, some 10, none, none⟩]
      = (.error "No valid locations to process", stReady) :=
  ⟨by decide, by decide,
    c10_all_invalid_batch_throws stReady 1000 _ (by decide) (by decide)⟩

/-! ## C3 -/

/-- C3 counterexample: `B7` is stored and active, its only sample is 31
minutes old at the query time, the snapshot cache is empty (a miss) — yet the
active-list read returns the empty list: the vehicle is not listed at all,
rather than listed with `latestLocation = null`, because the SQL `WHERE`
clause discards rows whose joined latest sample is older than the window. -/
theorem c3_counterexample_stale_bus_omitted :
    busB7 ∈ stStale.db.buses ∧ busB7.isActive = true
    ∧ latestSample stStale.db "B7" = some locStale
    ∧ locStale.timestamp < 1860000 - 30 * 60000
    ∧ mapGet stStale.cache.activeBuses "all_active_buses" = none
    ∧ (getActiveBusesOptimized stStale 1860000).1 = [] := by
  refine ⟨by decide, rfl, by decide, by decide, rfl, ?_⟩
  decide

/-- C3 amended: on a snapshot-cache miss, `listActive` lists an active vehicle
iff it has no samples at all or its most recent sample lies within the
30-minute window; a vehicle whose most recent sample is older than the window
is omitted entirely, while a vehicle with no samples is still listed, with
`latestLocation = null`. -/
theorem c3_amended_active_list_membership (st : SysState) (now : Int) (b : Bus)
    (hmiss : mapGet st.cache.activeBuses "all_active_buses" = none) :
    ((∃ e ∈ (getActiveBusesOptimized st now).1, e.bus = b) ↔
      (b ∈ st.db.buses ∧ b.isActive = true ∧
        (latestSample st.db b.busNumber).elim True
          (fun s => now - 30 * 60000 ≤ s.timestamp)))
    ∧ (b ∈ st.db.buses → b.isActive = true →
        latestSample st.db b.busNumber = none →
        ({ bus := b, latestLocation := none } : ActiveEntry)
          ∈ (getActiveBusesOptimized st now).1) := by
  have hdata : (getActiveBusesOptimized st now).1
      = getActiveBusesWithRecentActivity st.db now 30 := by
    rw [getActiveBusesOptimized, hmiss]
    rfl
  constructor
  · rw [hdata]
    exact mem_activeBusesQuery st.db now 30 b
  · intro hb hact hnone
    rw [hdata]
    unfold getActiveBusesWithRecentActivity
    refine List.mem_map.mpr ⟨(b, none), ?_, rfl⟩
    rw [List.mem_insertionSort, List.mem_filter]
    refine ⟨List.mem_map.mpr ⟨b, List.mem_filter.mpr ⟨hb, by simp [hact]⟩, ?_⟩, by simp⟩
    rw [hnone]

/-- Witness for C3 amended at the no-sample store `stReady`: the cache misses,
`busB7` has no samples, and it is listed with a null latest location. -/
theorem c3_amended_active_list_membership_witness :
    mapGet stReady.cache.activeBuses "all_active_buses" = none
    ∧ busB7 ∈ stReady.db.buses
    ∧ busB7.isActive = true
    ∧ latestSample stReady.db busB7.busNumber = none
    ∧ ({ bus := busB7, latestLocation := none } : ActiveEntry)
      ∈ (getActiveBusesOptimized stReady 1860000).1 :=
  ⟨rfl, by decide, by decide, by decide,
    (c3_amended_active_list_membership stReady 1860000 busB7 rfl).2
      (by decide) (by decide) (by decide)⟩

/-! ## C6 -/

/-- C6 counterexample: with `hours = 1`, the fetch underlying the history read
returns `[locFresh, locStale]` for `B7` — `locStale` is far older than the
one-hour trailing window at the query time yet is included (the fetch is a
row-count limit of `hours * 60`, not a timestamp filter), and the order is
newest-to-oldest, not oldest-to-newest. -/
theorem c6_counterexample_row_limit_not_window :
    locStale.timestamp < 1000000000 - 3600000
    ∧ getByBusNumber dbTwo "B7" (1 * 60) = [locFresh, locStale]
    ∧ getBusHistoryOptimized dbTwo "B7" 1 100
      = .ok ⟨busB7, [locFresh, locStale], 2, 2⟩ := by
  refine ⟨by decide, by decide, ?_⟩
  rfl

/-- C6 amended: the history fetch returns at most `hours * 60` samples, all
belonging to the requested vehicle, ordered newest-to-oldest by timestamp, and
consisting of the vehicle's most recent samples (any of the vehicle's stored
samples that was left out is no newer than every fetched one); the history
endpoint returns exactly this fetched list's downsampling and its length as
`totalLocations`. -/
theorem c6_amended_history_fetch (db : DB) (bn : String) (hours : Nat) :
    (getByBusNumber db bn (hours * 60)).length ≤ hours * 60
    ∧ (∀ l ∈ getByBusNumber db bn (hours * 60), l.busNumber = bn)
    ∧ (getByBusNumber db bn (hours * 60)).Pairwise tsDescR
    ∧ (∀ l ∈ db.locations, l.busNumber = bn →
        l ∉ getByBusNumber db bn (hours * 60) →
        ∀ m ∈ getByBusNumber db bn (hours * 60), l.timestamp ≤ m.timestamp)
    ∧ (∀ (maxPoints : Nat) (r : HistoryResult),
        getBusHistoryOptimized db bn hours maxPoints = .ok r →
        r.locations = sampleHistory (getByBusNumber db bn (hours * 60)) maxPoints
          ∧ r.totalLocations = (getByBusNumber db bn (hours * 60)).length) := by
  have hsorted := List.sorted_insertionSort tsDescR
    (db.locations.filter (fun l => l.busNumber == bn))
  refine ⟨?_, ?_, ?_, ?_, ?_⟩
  · exact List.length_take_le _ _
  · intro l hl
    have hm : l ∈ db.locations.filter (fun x => x.busNumber == bn) := by
      rw [← List.mem_insertionSort (r := tsDescR)]
      exact (List.take_sublist _ _).subset hl
    simpa using (List.mem_filter.mp hm).2
  · exact hsorted.sublist (List.take_sublist _ _)
  · intro l hl hbn hnot m hm
    have hls : l ∈ List.insertionSort tsDescR
        (db.locations.filter (fun x => x.busNumber == bn)) := by
      rw [List.mem_insertionSort]
      exact List.mem_filter.mpr ⟨hl, by simp [hbn]⟩
    have hsplit := List.take_append_drop (hours * 60)
      (List.insertionSort tsDescR (db.locations.filter (fun x => x.busNumber == bn)))
    rw [← hsplit] at hsorted hls
    obtain ⟨-, -, hcross⟩ := List.pairwise_append.mp hsorted
    have hld : l ∈ (List.insertionSort tsDescR
        (db.locations.filter (fun x => x.busNumber == bn))).drop (hours * 60) := by
      rcases List.mem_append.mp hls with h | h
      · exact absurd h hnot
      · exact h
    exact hcross m hm l hld
  · intro maxPoints r hr
    cases hfind : findByBusNumber db bn with
    | none => rw [getBusHistoryOptimized, hfind] at hr; cases hr
    | some bus =>
      rw [getBusHistoryOptimized, hfind] at hr
      cases hr
      exact ⟨rfl, rfl⟩

/-- Witness for C6 amended at `dbTwo`, `hours = 1`. -/
theorem c6_amended_history_fetch_witness :
    (getByBusNumber dbTwo "B7" (1 * 60)).length ≤ 1 * 60
    ∧ (∀ l ∈ getByBusNumber dbTwo "B7" (1 * 60), l.busNumber = "B7")
    ∧ (getByBusNumber dbTwo "B7" (1 * 60)).Pairwise tsDescR
    ∧ (∀ l ∈ dbTwo.locations, l.busNumber = "B7" →
        l ∉ getByBusNumber dbTwo "B7" (1 * 60) →
        ∀ m ∈ getByBusNumber dbTwo "B7" (1 * 60), l.timestamp ≤ m.timestamp)
    ∧ (∀ (maxPoints : Nat) (r : HistoryResult),
        getBusHistoryOptimized dbTwo "B7" 1 maxPoints = .ok r →
        r.locations = sampleHistory (getByBusNumber dbTwo "B7" (1 * 60)) maxPoints
          ∧ r.totalLocations = (getByBusNumber dbTwo "B7" (1 * 60)).length) :=
  c6_amended_history_fetch dbTwo "B7" 1

/-! ## C8 -/

/-- C8 counterexample: `B7` is active and has produced no sample at all — in
particular none within the 2-hour inactivity window — yet after a run of the
service's retention sweep (`performScheduledCleanup`) it is still active: the
sweep never marks vehicles inactive. -/
theorem c8_counterexample_sweep_keeps_silent_bus_active :
    stReady.db.buses = [busB7] ∧ busB7.isActive = true
    ∧ stReady.db.locations = []
    ∧ (performScheduledCleanup stReady tenDays).2.db.buses = [busB7]
    ∧ (performScheduledCleanup stReady tenDays).2.db.buses.all
        (fun b => b.isActive) = true := by
  refine ⟨rfl, rfl, rfl, ?_, ?_⟩ <;> decide

/-- C8 amended: the service's scheduled retention sweep never changes any
vehicle row (it only deletes aged samples and evicts over-aged cache entries);
the silence-based inactivity marking lives in the standalone maintenance
script `cleanupOldData`, which deactivates every active vehicle with no sample
in the trailing 2-hour window but, running outside the service process,
touches no cache. -/
theorem c8_amended_sweep_vs_script :
    (∀ (st : SysState) (now : Int),
      (performScheduledCleanup st now).2.db.buses = st.db.buses)
    ∧ (∀ (db : DB) (now : Int) (b : Bus), b ∈ db.buses → b.isActive = true →
        (∀ l ∈ (cleanupOldData db now).locations,
          l.busNumber = b.busNumber → l.timestamp < now - 7200000) →
        ({ b with isActive := false } : Bus) ∈ (cleanupOldData db now).buses) := by
  constructor
  · intro st now
    rfl
  · intro db now b hb hact hsilent
    have hnr : (db.locations.filter (fun l =>
        !(decide (l.timestamp < now - 7 * 86400000)))).any
        (fun l => l.busNumber == b.busNumber && decide (now - 2 * 3600000 ≤ l.timestamp))
        = false := by
      rw [List.any_eq_false]
      intro l hl
      intro hcontra
      rw [Bool.and_eq_true] at hcontra
      have h1 : l.busNumber = b.busNumber := by simpa using hcontra.1
      have h2 : now - 2 * 3600000 ≤ l.timestamp := by simpa using hcontra.2
      have h3 := hsilent l hl h1
      omega
    unfold cleanupOldData
    refine List.mem_map.mpr ⟨b, hb, ?_⟩
    beta_reduce
    rw [hact, hnr]
    rfl

/-- Witness for C8 amended: both parts applied to the silent active bus of
`stReady` at `tenDays`. -/
theorem c8_amended_sweep_vs_script_witness :
    (performScheduledCleanup stReady tenDays).2.db.buses = stReady.db.buses
    ∧ (busB7 ∈ stReady.db.buses ∧ busB7.isActive = true
      ∧ (∀ l ∈ (cleanupOldData stReady.db tenDays).locations,
          l.busNumber = busB7.busNumber → l.timestamp < tenDays - 7200000)
      ∧ ({ busB7 with isActive := false } : Bus)
        ∈ (cleanupOldData stReady.db tenDays).buses) :=
  ⟨c8_amended_sweep_vs_script.1 stReady tenDays,
    by decide, by decide, by decide,
    c8_amended_sweep_vs_script.2 stReady.db tenDays busB7
      (by decide) (by decide) (by decide)⟩

/-! ## C9 -/

/-- C9: starting tracking for an unseen vehicle id creates exactly one active
record for it; a second start-tracking call for the same id leaves the store
identical (it reactivates the already-active record instead of inserting), so
there is still exactly one record and the post-store of the second call equals
that of the first. -/
theorem c9_start_tracking_idempotent (st : SysState) (now1 now2 : Int)
    (bn dn : String) (h : findByBusNumber st.db bn = none) :
    st.db.buses.filter (fun b => b.busNumber == bn) = []
    ∧ (∃ b, (startTrackingOptimized st now1 bn dn).1 = .ok b
        ∧ b.isActive = true
        ∧ (startTrackingOptimized st now1 bn dn).2.db.buses = st.db.buses ++ [b])
    ∧ ((startTrackingOptimized st now1 bn dn).2.db.buses.filter
        (fun b => b.busNumber == bn)).length = 1
    ∧ (startTrackingOptimized (startTrackingOptimized st now1 bn dn).2 now2 bn dn).2.db
      = (startTrackingOptimized st now1 bn dn).2.db := by
  have hall : ∀ b ∈ st.db.buses, ¬ (b.busNumber == bn) = true := by
    rw [findByBusNumber] at h
    exact List.find?_eq_none.mp h
  have hfil : st.db.buses.filter (fun b => b.busNumber == bn) = [] :=
    List.filter_eq_nil_iff.mpr hall
  refine ⟨hfil, ?_, ?_, ?_⟩
  · refine ⟨⟨bn, if jsFalsyStr dn then "Unknown" else dn, true⟩, ?_, rfl, ?_⟩
    · simp [startTrackingOptimized, h, busCreate]
    · simp [startTrackingOptimized, h, busCreate]
  · simp [startTrackingOptimized, h, busCreate, List.filter_append, hfil]
  · have hfind2 : findByBusNumber (startTrackingOptimized st now1 bn dn).2.db bn
        = some ⟨bn, if jsFalsyStr dn then "Unknown" else dn, true⟩ := by
      simp [startTrackingOptimized, h, busCreate, findByBusNumber, List.find?_append]
      rw [findByBusNumber] at h
      simp [h]
    have hmap : ((startTrackingOptimized st now1 bn dn).2.db.buses.map (fun b =>
        if b.busNumber == bn then { b with isActive := true } else b))
        = (startTrackingOptimized st now1 bn dn).2.db.buses := by
      simp [startTrackingOptimized, h, busCreate, List.map_append]
      refine map_id_of_forall_mem (fun a ha => ?_)
      have hfa : (a.busNumber == bn) = false := by
        have := hall a ha
        simpa using this
      rw [if_neg (by simpa using hfa)]
    conv_lhs => rw [startTrackingOptimized]
    rw [hfind2]
    simp only [updateActiveStatus, hmap]
    have hfind2b : List.find? (fun b => b.busNumber == bn)
        (startTrackingOptimized st now1 bn dn).2.db.buses
        = some ⟨bn, if jsFalsyStr dn then "Unknown" else dn, true⟩ := by
      simpa [findByBusNumber] using hfind2
    rw [hfind2b]

/-- Witness for C9: tracking `B7` twice starting from the empty store. -/
theorem c9_start_tracking_idempotent_witness :
    findByBusNumber stEmpty.db "B7" = none
    ∧ (stEmpty.db.buses.filter (fun b => b.busNumber == "B7") = []
      ∧ (∃ b, (startTrackingOptimized stEmpty 1000 "B7" "Dana").1 = .ok b
          ∧ b.isActive = true
          ∧ (startTrackingOptimized stEmpty 1000 "B7" "Dana").2.db.buses
            = stEmpty.db.buses ++ [b])
      ∧ ((startTrackingOptimized stEmpty 1000 "B7" "Dana").2.db.buses.filter
          (fun b => b.busNumber == "B7")).length = 1
      ∧ (startTrackingOptimized
          (startTrackingOptimized stEmpty 1000 "B7" "Dana").2 2000 "B7" "Dana").2.db
        = (startTrackingOptimized stEmpty 1000 "B7" "Dana").2.db) :=
  ⟨rfl, c9_start_tracking_idempotent stEmpty 1000 2000 "B7" "Dana" rfl⟩

/-! ## C5: stride arithmetic -/

/-- The length of an index-filtered list is the number of accepted indices in
the corresponding index range. -/
theorem filterIdxAux_length {α : Type} (p : Nat → Bool) :
    ∀ (l : List α) (i : Nat),
      (filterIdxAux p i l).length = ((List.range' i l.length).filter p).length := by
  intro l
  induction l with
  | nil => intro i; rfl
  | cons x xs ih =>
    intro i
    cases h : p i <;>
      simp [filterIdxAux, List.range'_succ, h, ih (i + 1)]

/-- Stepping the ceiling-style quotient: adding `step` to the numerator adds
one exactly when `n` is a multiple of `step`. -/
theorem ceilDiv_succ (step n : Nat) (hstep : 1 ≤ step) :
    (n + step) / step = (n + step - 1) / step + (if n % step = 0 then 1 else 0) := by
  have h2 : n + step = (n + step - 1) + 1 := by omega
  rw [h2, Nat.succ_div, ← h2]
  congr 1
  simp [dvd_add_self_right, Nat.dvd_iff_mod_eq_zero]

/-- The number of multiples of `step` below `n` is `⌈n / step⌉`. -/
theorem strideCount (step : Nat) (hstep : 1 ≤ step) :
    ∀ n : Nat, ((List.range n).filter (fun i => i % step == 0)).length
      = (n + step - 1) / step := by
  intro n
  induction n with
  | zero => simp [Nat.div_eq_of_lt (by omega : step - 1 < step)]
  | succ n ih =>
    rw [List.range_succ, List.filter_append, List.length_append, ih]
    have he : n + 1 + step - 1 = n + step := by omega
    rw [he, ceilDiv_succ step n hstep]
    by_cases h : n % step = 0 <;> simp [h]

/-- `n ≤ m * ⌈n / m⌉`. -/
theorem le_mul_ceilDiv (n m : Nat) (hm : 1 ≤ m) : n ≤ m * ((n + m - 1) / m) := by
  rcases Nat.eq_zero_or_pos n with hn | hn
  · simp [hn]
  · have h1 : n + m - 1 = (n - 1) + m := by omega
    rw [h1]
    have key := Nat.div_add_mod ((n - 1) + m) m
    have hr : ((n - 1) + m) % m < m := Nat.mod_lt _ (by omega)
    omega

/-- `⌈n / step⌉ ≤ m` whenever `n ≤ step * m`. -/
theorem ceilDiv_le_of_le_mul (n step m : Nat) (hstep : 1 ≤ step)
    (h : n ≤ step * m) : (n + step - 1) / step ≤ m := by
  have h1 : n + step - 1 ≤ step * m + (step - 1) := by
    set sm := step * m with hsm
    omega
  calc (n + step - 1) / step ≤ (step * m + (step - 1)) / step :=
        Nat.div_le_div_right h1
    _ = m + (step - 1) / step := Nat.mul_add_div (by omega) m (step - 1)
    _ = m := by
        rw [Nat.div_eq_of_lt (by omega : step - 1 < step)]
        omega

/-- On an over-long fetch, the downsampling step is exactly the stride filter
(the forced re-inclusion of the head never fires because index 0 is always
kept), and the head of the result is the head of the input. -/
theorem sampleHistory_head_eq (x : Location) (xs : List Location) (m : Nat)
    (hlen : m < (x :: xs).length) :
    sampleHistory (x :: xs) m
      = filterIdx (fun i => i % histStride (x :: xs).length m == 0) (x :: xs)
    ∧ (sampleHistory (x :: xs) m).head? = some x := by
  have hsam : filterIdx (fun i => i % histStride (x :: xs).length m == 0) (x :: xs)
      = x :: filterIdxAux (fun i => i % histStride (x :: xs).length m == 0) 1 xs := by
    simp [filterIdx, filterIdxAux]
  constructor
  · unfold sampleHistory
    rw [if_pos hlen]
    simp only [hsam, bne_self_eq_false, Bool.false_eq_true, if_false]
  · unfold sampleHistory
    rw [if_pos hlen]
    simp only [hsam, bne_self_eq_false, Bool.false_eq_true, if_false, List.head?_cons]

/-! ## C5 -/

/-- C5: whenever the history fetch returns more than `maxPoints` samples (with
`maxPoints ≥ 1`), the downsampled list has at most `maxPoints` elements, is
exactly the fixed-stride selection (indices divisible by
`ceil(n / maxPoints)`) over the fetched sequence, and its head is the head of
the fetch — the single most recent sample, since the fetch is newest-first;
the history endpoint returns exactly this downsampled list; and for `n = 237`,
`maxPoints = 100` the stride is 3. -/
theorem c5_history_downsampling (db : DB) (bn : String) (hours maxPoints : Nat)
    (hm : 1 ≤ maxPoints)
    (hcount : maxPoints < (getByBusNumber db bn (hours * 60)).length) :
    (sampleHistory (getByBusNumber db bn (hours * 60)) maxPoints).length ≤ maxPoints
    ∧ sampleHistory (getByBusNumber db bn (hours * 60)) maxPoints
      = filterIdx (fun i =>
          i % histStride (getByBusNumber db bn (hours * 60)).length maxPoints == 0)
          (getByBusNumber db bn (hours * 60))
    ∧ (sampleHistory (getByBusNumber db bn (hours * 60)) maxPoints).head?
      = (getByBusNumber db bn (hours * 60)).head?
    ∧ (∀ bus, findByBusNumber db bn = some bus →
        getBusHistoryOptimized db bn hours maxPoints
          = .ok { bus := bus
                  locations := sampleHistory (getByBusNumber db bn (hours * 60)) maxPoints
                  totalLocations := (getByBusNumber db bn (hours * 60)).length
                  sampledPoints :=
                    (sampleHistory (getByBusNumber db bn (hours * 60)) maxPoints).length })
    ∧ histStride 237 100 = 3 := by
  have hE : ∀ bus, findByBusNumber db bn = some bus →
      getBusHistoryOptimized db bn hours maxPoints
        = .ok { bus := bus
                locations := sampleHistory (getByBusNumber db bn (hours * 60)) maxPoints
                totalLocations := (getByBusNumber db bn (hours * 60)).length
                sampledPoints :=
                  (sampleHistory (getByBusNumber db bn (hours * 60)) maxPoints).length } := by
    intro bus hfind
    rw [getBusHistoryOptimized, hfind]
  cases hL : getByBusNumber db bn (hours * 60) with
  | nil => rw [hL] at hcount; simp at hcount
  | cons x xs =>
    rw [hL] at hcount hE
    obtain ⟨heq, hhead⟩ := sampleHistory_head_eq x xs maxPoints hcount
    have hstep : 1 ≤ histStride (x :: xs).length maxPoints := by
      rw [histStride, Nat.one_le_div_iff (by omega)]
      omega
    have hlenle : (sampleHistory (x :: xs) maxPoints).length ≤ maxPoints := by
      rw [heq, filterIdx, filterIdxAux_length, ← List.range_eq_range',
        strideCount _ hstep]
      refine ceilDiv_le_of_le_mul _ _ _ hstep ?_
      rw [Nat.mul_comm]
      exact le_mul_ceilDiv (x :: xs).length maxPoints hm
    refine ⟨hlenle, heq, by simp [hhead], hE, by decide⟩

/-- Witness for C5 at `dbTwo`: 2 fetched samples, `maxPoints = 1`. -/
theorem c5_history_downsampling_witness :
    (1 ≤ 1)
    ∧ 1 < (getByBusNumber dbTwo "B7" (1 * 60)).length
    ∧ ((sampleHistory (getByBusNumber dbTwo "B7" (1 * 60)) 1).length ≤ 1
      ∧ sampleHistory (getByBusNumber dbTwo "B7" (1 * 60)) 1
        = filterIdx (fun i =>
            i % histStride (getByBusNumber dbTwo "B7" (1 * 60)).length 1 == 0)
            (getByBusNumber dbTwo "B7" (1 * 60))
      ∧ (sampleHistory (getByBusNumber dbTwo "B7" (1 * 60)) 1).head?
        = (getByBusNumber dbTwo "B7" (1 * 60)).head?
      ∧ (∀ bus, findByBusNumber dbTwo "B7" = some bus →
          getBusHistoryOptimized dbTwo "B7" 1 1
            = .ok { bus := bus
                    locations := sampleHistory (getByBusNumber dbTwo "B7" (1 * 60)) 1
                    totalLocations := (getByBusNumber dbTwo "B7" (1 * 60)).length
                    sampledPoints :=
                      (sampleHistory (getByBusNumber dbTwo "B7" (1 * 60)) 1).length })
      ∧ histStride 237 100 = 3) :=
  ⟨by norm_num, by decide,
    c5_history_downsampling dbTwo "B7" 1 1 (by norm_num) (by decide)⟩

/-! ## C7 -/

/-- C7: the retention sweep keeps exactly the samples that are either not aged
or whose per-vehicle recency rank within the aged set is a multiple of
`keepEveryNth` (given globally distinct sample ids, as the store's primary key
guarantees); concretely, with `retentionDays = 7` and `keepEveryNth = 10` on a
vehicle with 100 samples all 10 days old, exactly 90 are deleted and 10
retained. -/
theorem c7_retention_rank_cleanup (db : DB) (now : Int) (daysOld keepEvery : Nat)
    (hids : (db.locations.map (fun l => l.id)).Nodup) :
    ((smartCleanup db now daysOld keepEvery).2.locations
      = db.locations.filter (fun l =>
          !(agedB now daysOld l)
            || locRank (db.locations.filter (agedB now daysOld)) l % keepEvery == 0))
    ∧ (smartCleanup dbHundred tenDays 7 10).1 = 90
    ∧ (smartCleanup dbHundred tenDays 7 10).2.locations.length = 10 := by
  refine ⟨?_, by decide, by decide⟩
  unfold smartCleanup
  refine List.filter_congr (fun l hl => ?_)
  have hmem : ((((db.locations.filter (agedB now daysOld)).filter
        (fun x => locRank (db.locations.filter (agedB now daysOld)) x % keepEvery != 0)).map
        (fun m => m.id)).contains l.id = true)
      ↔ (agedB now daysOld l = true
          ∧ locRank (db.locations.filter (agedB now daysOld)) l % keepEvery ≠ 0) := by
    constructor
    · intro h
      obtain ⟨m, hm, hmid⟩ : ∃ m ∈ (db.locations.filter (agedB now daysOld)).filter
          (fun x => locRank (db.locations.filter (agedB now daysOld)) x % keepEvery != 0),
          m.id = l.id := by simpa using h
      have hm1 := List.mem_filter.mp hm
      have hm2 := List.mem_filter.mp hm1.1
      have hml : m = l := List.inj_on_of_nodup_map hids hm2.1 hl hmid
      rw [hml] at hm1 hm2
      refine ⟨hm2.2, by simpa using hm1.2⟩
    · rintro ⟨hag, hq⟩
      have hin : l.id ∈ (((db.locations.filter (agedB now daysOld)).filter
          (fun x => locRank (db.locations.filter (agedB now daysOld)) x % keepEvery != 0)).map
          (fun m => m.id)) :=
        List.mem_map.mpr ⟨l, List.mem_filter.mpr
          ⟨List.mem_filter.mpr ⟨hl, hag⟩, by simpa using hq⟩, rfl⟩
      simpa using hin
  cases hA : agedB now daysOld l with
  | false =>
    have hc : (((db.locations.filter (agedB now daysOld)).filter
        (fun x => locRank (db.locations.filter (agedB now daysOld)) x % keepEvery != 0)).map
        (fun m => m.id)).contains l.id = false := by
      rcases Bool.eq_false_or_eq_true ((((db.locations.filter (agedB now daysOld)).filter
          (fun x => locRank (db.locations.filter (agedB now daysOld)) x % keepEvery != 0)).map
          (fun m => m.id)).contains l.id) with h | h
      · exact absurd (hmem.mp h).1 (by simp [hA])
      · exact h
    rw [hc]
    rfl
  | true =>
    cases hM : (locRank (db.locations.filter (agedB now daysOld)) l % keepEvery == 0) with
    | false =>
      have hc := hmem.mpr ⟨hA, by simpa using hM⟩
      rw [hc]
      rfl
    | true =>
      have hc : (((db.locations.filter (agedB now daysOld)).filter
          (fun x => locRank (db.locations.filter (agedB now daysOld)) x % keepEvery != 0)).map
          (fun m => m.id)).contains l.id = false := by
        rcases Bool.eq_false_or_eq_true ((((db.locations.filter (agedB now daysOld)).filter
            (fun x => locRank (db.locations.filter (agedB now daysOld)) x % keepEvery != 0)).map
            (fun m => m.id)).contains l.id) with h | h
        · exact absurd (hmem.mp h).2 (by simpa using hM)
        · exact h
      rw [hc]
      rfl

/-- Witness for C7 at the 100-sample store. -/
theorem c7_retention_rank_cleanup_witness :
    ((dbHundred.locations.map (fun l => l.id)).Nodup)
    ∧ (((smartCleanup dbHundred tenDays 7 10).2.locations
        = dbHundred.locations.filter (fun l =>
            !(agedB tenDays 7 l)
              || locRank (dbHundred.locations.filter (agedB tenDays 7)) l % 10 == 0))
      ∧ (smartCleanup dbHundred tenDays 7 10).1 = 90
      ∧ (smartCleanup dbHundred tenDays 7 10).2.locations.length = 10) :=
  ⟨by decide, c7_retention_rank_cleanup dbHundred tenDays 7 10 (by decide)⟩

end BusTracking
